import Mathlib

/-!
# Verification of `tools/auto_login.py` (trading_algo)

A shallow embedding of the credential-acquisition flow of
`src/tools/auto_login.py`: the TOTP passcode computation, the redirect
query-string parsing, the bounded login-retry loop with its browser
lifecycle, the three storage sinks, and the `main` driver.  External
effects (the browser, subprocesses, the file system) are modelled by
explicit oracle/world records; machine behaviour that the script only
observes (element waits, subprocess return codes) is an input to the
model, while everything the script itself computes is translated
directly from the source.
-/

namespace AutoLogin

/-! ## TOTP (RFC 6238 / RFC 4226 over HMAC-SHA-1)

Modelled from the spec: the script calls `pyotp.TOTP(totp_secret).now()`
(`tools/auto_login.py` line 306); the `pyotp` library itself is a
third-party dependency not in the repository, and the spec pins its
behaviour to "the standard time-step algorithm (30-second step, 6-digit
code)", i.e. RFC 6238 with HMAC-SHA-1 over the base32-decoded seed.
The definitions below implement exactly that standard algorithm.
-/

/-- Truncate a natural number to a 32-bit word. -/
def w32 (n : Nat) : Nat := n % 4294967296

/-- Left rotation of a 32-bit word. -/
def rotl (n x : Nat) : Nat := w32 ((x <<< n) ||| (x >>> (32 - n)))

/-- Value of one base32 alphabet character (RFC 4648), `none` for
characters outside the alphabet (pyotp strips `=` padding). -/
def b32CharVal (c : Char) : Option Nat :=
  if 'A' ≤ c ∧ c ≤ 'Z' then some (c.toNat - 'A'.toNat)
  else if 'a' ≤ c ∧ c ≤ 'z' then some (c.toNat - 'a'.toNat)
  else if '2' ≤ c ∧ c ≤ '7' then some (c.toNat - '2'.toNat + 26)
  else none

/-- RFC 4648 base32 decoding of a well-formed seed string to a byte
list: concatenate the 5-bit values and keep the leading whole bytes
(this is `base64.b32decode` with `casefold=True` on the seeds pyotp
accepts). -/
def base32Decode (s : String) : List Nat :=
  let vals := s.data.filterMap b32CharVal
  let nbits := 5 * vals.length
  let nbytes := nbits / 8
  let acc := (vals.foldl (fun a v => a * 32 + v) 0) >>> (nbits % 8)
  (List.range nbytes).map (fun i => (acc >>> (8 * (nbytes - 1 - i))) % 256)

/-- SHA-1 padding: append `0x80`, zero bytes to 56 mod 64, then the
bit length as 8 big-endian bytes. -/
def sha1Pad (msg : List Nat) : List Nat :=
  let len := msg.length
  let k := (119 - len % 64) % 64
  msg ++ [128] ++ List.replicate k 0 ++
    (List.range 8).map (fun i => ((8 * len) >>> (8 * (7 - i))) % 256)

/-- Group a byte list into big-endian 32-bit words. -/
def bytesToWords : List Nat → List Nat
  | b0 :: b1 :: b2 :: b3 :: rest =>
      (((b0 * 256 + b1) * 256 + b2) * 256 + b3) :: bytesToWords rest
  | _ => []

/-- Split a list into 64-byte chunks; `fuel` is the number of chunks,
`padded.length / 64` for a padded message. -/
def chunks64 (l : List Nat) : Nat → List (List Nat)
  | 0 => []
  | fuel + 1 => l.take 64 :: chunks64 (l.drop 64) fuel

/-- Extend the 16-word schedule; `acc` holds the words produced so far,
most recent first, so `w[t-3]` is `acc[2]`, …, `w[t-16]` is `acc[15]`. -/
def scheduleExt (acc : List Nat) : Nat → List Nat
  | 0 => acc.reverse
  | n + 1 =>
      let w := rotl 1 (acc.getD 2 0 ^^^ acc.getD 7 0 ^^^ acc.getD 13 0 ^^^ acc.getD 15 0)
      scheduleExt (w :: acc) n

/-- The 80-word SHA-1 message schedule of one 16-word block. -/
def sha1Schedule (ws : List Nat) : List Nat := scheduleExt ws.reverse 64

/-- SHA-1 round function `f_t`. -/
def sha1F (t b c d : Nat) : Nat :=
  if t < 20 then (b &&& c) ||| ((4294967295 - b) &&& d)
  else if t < 40 then b ^^^ c ^^^ d
  else if t < 60 then (b &&& c) ||| (b &&& d) ||| (c &&& d)
  else b ^^^ c ^^^ d

/-- SHA-1 round constant `K_t`. -/
def sha1K (t : Nat) : Nat :=
  if t < 20 then 1518500249
  else if t < 40 then 1859775393
  else if t < 60 then 2400959708
  else 3395469782

/-- One SHA-1 round: state `(a,b,c,d,e)`, input `(t, w_t)`. -/
def sha1Round (st : Nat × Nat × Nat × Nat × Nat) (tw : Nat × Nat) :
    Nat × Nat × Nat × Nat × Nat :=
  let (a, b, c, d, e) := st
  let temp := w32 (rotl 5 a + sha1F tw.1 b c d + e + sha1K tw.1 + tw.2)
  (temp, a, rotl 30 b, c, d)

/-- SHA-1 compression of one 64-byte block into the chaining state. -/
def sha1Compress (h : Nat × Nat × Nat × Nat × Nat) (block : List Nat) :
    Nat × Nat × Nat × Nat × Nat :=
  let ws := sha1Schedule (bytesToWords block)
  let (a, b, c, d, e) := ((List.range 80).zip ws).foldl sha1Round h
  let (h0, h1, h2, h3, h4) := h
  (w32 (h0 + a), w32 (h1 + b), w32 (h2 + c), w32 (h3 + d), w32 (h4 + e))

/-- Big-endian bytes of one 32-bit word. -/
def wordBytes (w : Nat) : List Nat :=
  [(w >>> 24) % 256, (w >>> 16) % 256, (w >>> 8) % 256, w % 256]

/-- SHA-1 digest (20 bytes) of a byte list. -/
def sha1 (msg : List Nat) : List Nat :=
  let padded := sha1Pad msg
  let init := (1732584193, 4023233417, 2562383102, 271733878, 3285377520)
  let (h0, h1, h2, h3, h4) := (chunks64 padded (padded.length / 64)).foldl sha1Compress init
  wordBytes h0 ++ wordBytes h1 ++ wordBytes h2 ++ wordBytes h3 ++ wordBytes h4

/-- HMAC-SHA-1 (RFC 2104) of a message under a key, as 20 bytes. -/
def hmacSha1 (key msg : List Nat) : List Nat :=
  let k0 := if key.length > 64 then sha1 key else key
  let k1 := k0 ++ List.replicate (64 - k0.length) 0
  sha1 ((k1.map (fun b => b ^^^ 92)) ++ sha1 ((k1.map (fun b => b ^^^ 54)) ++ msg))

/-- Zero-pad a code to 6 digits, as `pyotp` does. -/
def pad6 (n : Nat) : String :=
  let s := toString n
  String.mk (List.replicate (6 - s.length) '0') ++ s

/-- RFC 6238 TOTP: 30-second step, 6 digits, HMAC-SHA-1, dynamic
truncation — the value of `pyotp.TOTP(secret).now()` at Unix time `t`. -/
def totp (secret : String) (t : Nat) : String :=
  let key := base32Decode secret
  let counter := t / 30
  let msg := (List.range 8).map (fun i => (counter >>> (8 * (7 - i))) % 256)
  let mac := hmacSha1 key msg
  let off := mac.getD 19 0 % 16
  let bin := (mac.getD off 0 % 128) * 16777216 + mac.getD (off + 1) 0 * 65536 +
      mac.getD (off + 2) 0 * 256 + mac.getD (off + 3) 0
  pad6 (bin % 1000000)

set_option maxRecDepth 40000

/-! ## Redirect query-string parsing

`login_and_get_token` extracts the redirect token with
`parse_qs(urlparse(current_url).query).get("request_token", [None])[0]`
(lines 370–371).  `parseQsl` models `urllib.parse.parse_qsl` on the
query component: split on `&`, split each field at its first `=`, and
(with the default `keep_blank_values=False`) drop fields with no `=`
or with an empty value.  Percent-unquoting is omitted: redirect tokens
are plain alphanumeric strings.  `parse_qs` groups the pairs into a
dict of value lists, so `.get(k, [None])[0]` is the first value parsed
for the key. -/

/-- Split a character list at every occurrence of `sep`. -/
def splitOnChar (sep : Char) : List Char → List (List Char)
  | [] => [[]]
  | c :: rest =>
      let r := splitOnChar sep rest
      if c = sep then [] :: r
      else
        match r with
        | [] => [[c]]
        | h :: t => (c :: h) :: t

/-- Split a character list at the first occurrence of `sep` (Python's
`partition`); `none` when `sep` does not occur. -/
def splitFirstAt (sep : Char) : List Char → Option (List Char × List Char)
  | [] => none
  | c :: rest =>
      if c = sep then some ([], rest)
      else
        match splitFirstAt sep rest with
        | none => none
        | some kv => some (c :: kv.1, kv.2)

/-- The `name=value` pairs of a query string, in order, as
`urllib.parse.parse_qsl` produces them. -/
def parseQsl (query : String) : List (String × String) :=
  (splitOnChar '&' query.data).filterMap fun nv =>
    match splitFirstAt '=' nv with
    | none => none
    | some kv =>
        if kv.2 = [] then none else some (String.mk kv.1, String.mk kv.2)

/-- The value the script reads for `request_token`:
`parse_qs(query).get("request_token", [None])[0]`. -/
def extractRequestToken (query : String) : Option String :=
  (parseQsl query).findSome? fun kv =>
    if kv.1 = "request_token" then some kv.2 else none

/-! ## Credential validation (`main`, lines 424–434) -/

/-- Python truthiness test `not v` on an optional string: true exactly
when the value is `None` or the empty string. -/
def strFalsy : Option String → Bool
  | none => true
  | some s => s.isEmpty

/-- The credential set assembled by `load_env_config`: each field is
`None` when the variable is absent (and may be set to `""`). -/
structure Creds where
  api_key : Option String
  api_secret : Option String
  user_id : Option String
  password : Option String
  totp_secret : Option String

/-- The `(name, value)` pairs in the order `main` lists them
(line 431). -/
def credPairs (c : Creds) : List (String × Option String) :=
  [("api_key", c.api_key), ("api_secret", c.api_secret), ("user_id", c.user_id),
   ("password", c.password), ("totp_secret", c.totp_secret)]

/-- The source’s `missing = [k for k, v in ... if not v]` (line 431). -/
def missingFields (c : Creds) : List String :=
  ((credPairs c).filter fun kv => strFalsy kv.2).map fun kv => kv.1

/-! ## The login flow (`login_and_get_token`, lines 200–411)

External machinery is an oracle: whether the third-party imports
succeed, whether a Chrome binary and driver are found, what each
navigation attempt observes, and what the token-exchange response
contains.  Everything the script decides — the retry loop, the falsy
checks, the exit codes, when `driver.quit()` runs — is translated from
the source. -/

/-- What one iteration of the retry loop runs into.  A `TimeoutException`
(caught at line 378) and any other exception (caught at line 381) both
`continue`; otherwise the attempt reaches line 370 with the query
component of `driver.current_url`. -/
inductive AttemptOutcome
  | redirected (query : String)
  | timeoutExc
  | unexpectedExc

/-- Oracle for one run of `login_and_get_token`. -/
structure LoginEnv where
  /-- the `import` block at lines 202–211 succeeds -/
  depsAvailable : Bool
  /-- The source’s `find_chrome_and_driver` found a Chrome binary -/
  chromeFound : Bool
  /-- a chromedriver path is available (system or webdriver-manager) -/
  driverFound : Bool
  /-- what navigation attempt `n` (1-based) observes -/
  outcomes : Nat → AttemptOutcome
  /-- The source’s `session_data.get("access_token")` from `generate_session` -/
  sessionAccessToken : Option String

/-- Externally visible steps of a run, in order. -/
inductive Action
  | browserLaunch
  | navAttempt (n : Nat)
  | driverQuit
  | tokenExchange
  | sinkKeychainTry
  | sinkLocalFileTry
  | sinkGhSecretTry
  deriving DecidableEq, Repr

/-- The source’s `max_attempts = 2` (line 262). -/
def max_attempts : Nat := 2

/-- Exit code of a fully successful run (normal return from `main`). -/
def exit_success : Nat := 0

/-- The source’s `sys.exit(2)` — a required credential field is missing (line 434). -/
def exit_missing_credential : Nat := 2

/-- The source’s `sys.exit(3)` — Chrome or chromedriver not found (line 231). -/
def exit_env_unavailable : Nat := 3

/-- The source’s `sys.exit(4)` — no `request_token` after all attempts (line 402),
covering both the challenge-element-not-found and the
redirect-token-missing failure modes. -/
def exit_challenge_or_redirect : Nat := 4

/-- The source’s `sys.exit(6)` — third-party imports unavailable (line 215). -/
def exit_missing_deps : Nat := 6

/-- The source’s `sys.exit(7)` — `generate_session` returned no `access_token`
(line 409). -/
def exit_token_exchange_failed : Nat := 7

/-- The retry loop (lines 264–393):
`while attempt < max_attempts and not request_token`.  `fuel` is
`max_attempts - attempt`, so the guard `attempt < max_attempts` is
`fuel > 0`.  Returns the final `attempt` counter, the final
`request_token`, and the navigation actions performed. -/
def loopGo (outcomes : Nat → AttemptOutcome) :
    Nat → Nat → Option String → Nat × Option String × List Action
  | 0, attempt, tok => (attempt, tok, [])
  | fuel + 1, attempt, tok =>
      if strFalsy tok then
        let a := attempt + 1
        let tok' :=
          match outcomes a with
          | .redirected q => extractRequestToken q
          | _ => tok
        let r := loopGo outcomes fuel a tok'
        (r.1, r.2.1, Action.navAttempt a :: r.2.2)
      else (attempt, tok, [])

/-- Result of `login_and_get_token`: the actions performed, the final
attempt counter, and either `sys.exit` with a code or the access
token. -/
structure LoginResult where
  trace : List Action
  attempts : Nat
  outcome : Except Nat String

/-- The retry loop as the flow runs it: `attempt = 0`,
`request_token = None`, budget `max_attempts`. -/
def loginLoopResult (env : LoginEnv) : Nat × Option String × List Action :=
  loopGo env.outcomes max_attempts 0 none

/-- The source’s `login_and_get_token` (lines 200–411): dependency check
(`sys.exit(6)`), chrome/driver check (`sys.exit(3)`), browser launch,
the retry loop, `driver.quit()`, the `request_token` falsy check
(`sys.exit(4)`), and the token exchange (`sys.exit(7)` when the
response has no truthy `access_token`). -/
def login_and_get_token (env : LoginEnv) : LoginResult :=
  if !env.depsAvailable then ⟨[], 0, .error exit_missing_deps⟩
  else if !(env.chromeFound && env.driverFound) then ⟨[], 0, .error exit_env_unavailable⟩
  else
    match loginLoopResult env with
    | (n, none, tr) =>
        ⟨Action.browserLaunch :: tr ++ [Action.driverQuit], n,
         .error exit_challenge_or_redirect⟩
    | (n, some _rt, tr) =>
        if strFalsy env.sessionAccessToken then
          ⟨Action.browserLaunch :: tr ++ [Action.driverQuit, Action.tokenExchange], n,
           .error exit_token_exchange_failed⟩
        else
          ⟨Action.browserLaunch :: tr ++ [Action.driverQuit, Action.tokenExchange], n,
           .ok (env.sessionAccessToken.getD "")⟩

/-! ## `main` (lines 414–458) -/

/-- Oracle for one run of `main`: the loaded credentials, the login
oracle, and what each of the three sinks returns (per the sink
interface each returns a boolean, claims C9/C10 model their internals
separately). -/
structure MainEnv where
  creds : Creds
  login : LoginEnv
  keychainOk : Bool
  fileOk : Bool
  ghOk : Bool

/-- Observable summary of one run of `main`. -/
structure MainResult where
  trace : List Action
  exitCode : Nat
  /-- The source’s `(keychain_ok, file_ok, gh_ok)` when the sink phase ran -/
  sinkResults : Option (Bool × Bool × Bool)
  /-- the line-458 `log.error("No storage succeeded...")` branch ran -/
  storageErrorLogged : Bool

/-- The source’s `main` (lines 414–458): the missing-credential check exits with
code 2 before `login_and_get_token` is called; a `sys.exit` inside the
login flow ends the process with that code; otherwise all three sinks
are attempted unconditionally, their booleans recorded, and the
process returns normally (exit code 0) whatever the sink results. -/
def main (e : MainEnv) : MainResult :=
  if missingFields e.creds ≠ [] then ⟨[], exit_missing_credential, none, false⟩
  else
    match (login_and_get_token e.login).outcome with
    | .error c => ⟨(login_and_get_token e.login).trace, c, none, false⟩
    | .ok _tok =>
        ⟨(login_and_get_token e.login).trace ++
           [Action.sinkKeychainTry, Action.sinkLocalFileTry, Action.sinkGhSecretTry],
         exit_success, some (e.keychainOk, e.fileOk, e.ghOk),
         !(e.keychainOk || e.fileOk || e.ghOk)⟩

/-! ## Storage sinks (lines 79–162)

Each sink talks to the outside world (a subprocess, the file system);
the world records below say how those calls go.  The control flow —
which calls sit inside a `try`/`except` handler and which do not, how
return codes map to booleans — is translated from the source.  A value
`Except.error exc` means the Python function let exception `exc`
escape to its caller. -/

/-- The exception classes the script's handlers distinguish. -/
inductive PyExc
  | fileNotFound
  | other
  deriving DecidableEq, Repr

/-- World for `gh_update_secret`: how `subprocess.run(["gh", ...])`
goes (line 91). -/
structure GhWorld where
  /-- The source’s `subprocess.run` raises `FileNotFoundError` (no `gh` in PATH) -/
  runRaisesFileNotFound : Bool
  /-- The source’s `subprocess.run` raises some other exception -/
  runRaisesOther : Bool
  /-- the CLI return code otherwise -/
  returncode : Nat

/-- The body of the `try` at lines 89–97: run the CLI and map the
return code. -/
def ghTryBody (w : GhWorld) : Except PyExc Bool :=
  if w.runRaisesFileNotFound then .error .fileNotFound
  else if w.runRaisesOther then .error .other
  else .ok (w.returncode == 0)

/-- The source’s `gh_update_secret` (lines 79–103): the `except FileNotFoundError`
(line 98) and `except Exception` (line 101) handlers both log and
return `False`. -/
def gh_update_secret (w : GhWorld) : Except PyExc Bool :=
  match ghTryBody w with
  | .ok b => .ok b
  | .error .fileNotFound => .ok false
  | .error .other => .ok false

/-- World for `save_to_keychain`: the platform and how the `security`
CLI calls go. -/
structure KeychainWorld where
  /-- The source’s `sys.platform == "darwin"` -/
  isDarwin : Bool
  /-- The source’s `subprocess.run(["security", ...])` raises `FileNotFoundError` -/
  securityRaisesFileNotFound : Bool
  /-- some other exception is raised inside the `try` -/
  raisesOther : Bool
  /-- return code of the first `add-generic-password` call -/
  addReturncode : Nat
  /-- its stderr contains `"already exists"` (lower-cased) -/
  stderrHasAlreadyExists : Bool
  /-- return code of the retry after `delete-generic-password` -/
  retryReturncode : Nat

/-- The body of the `try` at lines 114–140: first `add`, then on an
"already exists" error a `delete` + retry. -/
def keychainTryBody (w : KeychainWorld) : Except PyExc Bool :=
  if w.securityRaisesFileNotFound then .error .fileNotFound
  else if w.raisesOther then .error .other
  else if w.addReturncode == 0 then .ok true
  else if w.stderrHasAlreadyExists && (w.retryReturncode == 0) then .ok true
  else .ok false

/-- The source’s `save_to_keychain` (lines 106–146): returns `False` off macOS
(line 110); the `except FileNotFoundError` (line 141) and
`except Exception` (line 144) handlers both return `False`. -/
def save_to_keychain (w : KeychainWorld) : Except PyExc Bool :=
  if !w.isDarwin then .ok false
  else
    match keychainTryBody w with
    | .ok b => .ok b
    | .error _ => .ok false

/-! ### The local-file sink and its JSON payload -/

/-- Lower-case one ASCII letter — `str.lower()` on the ASCII
environment labels the script uses (`"SARAS"`, `"VS"`). -/
def asciiLower (c : Char) : Char :=
  if 'A' ≤ c ∧ c ≤ 'Z' then Char.ofNat (c.toNat + 32) else c

/-- The source’s `env.lower()` (line 153) on ASCII labels. -/
def strLower (s : String) : String := String.mk (s.data.map asciiLower)

/-- Hexadecimal digit, lower case, as Python's `{0:04x}` format uses. -/
def hexDigit (n : Nat) : Char :=
  if n < 10 then Char.ofNat ('0'.toNat + n) else Char.ofNat ('a'.toNat + n - 10)

/-- A `\uXXXX` escape for a code unit. -/
def uEscape (n : Nat) : List Char :=
  ['\\', 'u', hexDigit (n / 4096 % 16), hexDigit (n / 256 % 16),
   hexDigit (n / 16 % 16), hexDigit (n % 16)]

/-- How `json.dump` (default `ensure_ascii=True`) renders one string
character: short escapes for the two JSON metacharacters and the five
named control characters, `\uXXXX` (with surrogate pairs above the
BMP) for every other character outside printable ASCII, and the
character itself otherwise. -/
def jsonEscapeChar (c : Char) : List Char :=
  if c = '"' then ['\\', '"']
  else if c = '\\' then ['\\', '\\']
  else if c.toNat = 8 then ['\\', 'b']
  else if c.toNat = 9 then ['\\', 't']
  else if c.toNat = 10 then ['\\', 'n']
  else if c.toNat = 12 then ['\\', 'f']
  else if c.toNat = 13 then ['\\', 'r']
  else if c.toNat < 32 ∨ c.toNat > 126 then
    if c.toNat < 65536 then uEscape c.toNat
    else
      uEscape (55296 + (c.toNat - 65536) / 1024) ++ uEscape (56320 + (c.toNat - 65536) % 1024)
  else [c]

/-- Python's JSON rendering of a string literal. -/
def pyJsonStr (s : String) : String :=
  "\"" ++ String.mk (s.data.map jsonEscapeChar).flatten ++ "\""

/-- The source’s `json.dump({"access_token": token}, fh)` (line 156): one-pair
object, default separators. -/
def jsonDumpAccessToken (token : String) : String :=
  "\x7b\"access_token\": " ++ pyJsonStr token ++ "\x7d"

/-- Characters that JSON renders as themselves: printable ASCII other
than the quote and the backslash. -/
def jsonPlainChar (c : Char) : Bool :=
  (32 ≤ c.toNat && c.toNat ≤ 126) && c != '"' && c != '\\'

/-- World for `save_to_local_file`: the home directory and how the
file-system calls go. -/
structure FsWorld where
  /-- what `os.path.expanduser("~")` resolves to -/
  home : String
  /-- The source’s `os.makedirs(cfg_dir, exist_ok=True)` raises (line 152 — this
  call sits OUTSIDE the `try`) -/
  makedirsRaises : Bool
  /-- The source’s `open(path, "w")` / `json.dump` raises (inside the `try`) -/
  writeRaises : Bool
  /-- The source’s `os.chmod` raises (inside the `try`) -/
  chmodRaises : Bool

/-- Observable result of `save_to_local_file`: what the Python call
returns (or raises), the per-account path it targets, the content at
that path afterwards (`prior` when nothing was written — `open(path,
"w")` truncates, so a successful write replaces, never merges), and
the permission bits when `chmod` ran. -/
structure LocalSaveOutcome where
  result : Except PyExc Bool
  path : String
  fileContent : Option String
  fileMode : Option Nat

/-- The source’s `save_to_local_file` (lines 149–162): build the config-dir path,
`os.makedirs` outside any handler, then inside the `try` write the
JSON object with `open(path, "w")` and set mode `0o600`; the
`except Exception` handler returns `False`. -/
def save_to_local_file (w : FsWorld) (env token : String) (prior : Option String) :
    LocalSaveOutcome :=
  let cfg_dir := w.home ++ "/.config/trading_algo"
  let path := cfg_dir ++ "/access_" ++ strLower env ++ ".json"
  if w.makedirsRaises then ⟨.error .other, path, prior, none⟩
  else if w.writeRaises then ⟨.ok false, path, prior, none⟩
  else if w.chmodRaises then ⟨.ok false, path, some (jsonDumpAccessToken token), none⟩
  else ⟨.ok true, path, some (jsonDumpAccessToken token), some 0o600⟩

/-! ## Concrete oracle environments used as witnesses -/

/-- A complete credential set. -/
def fullCreds : Creds :=
  ⟨some "key1", some "sec1", some "AB1234", some "pw9", some "JBSWY3DPEHPK3PXP"⟩

/-- The same set with `PASSWORD_<ENV>` unset. -/
def credsNoPassword : Creds :=
  ⟨some "key1", some "sec1", some "AB1234", none, some "JBSWY3DPEHPK3PXP"⟩

/-- Every navigation attempt reaches a redirect URL that carries a
request token. -/
def okOutcomes : Nat → AttemptOutcome :=
  fun _ => .redirected "action=login&status=success&request_token=req42"

/-- A login oracle for the all-good run. -/
def okLoginEnv : LoginEnv := ⟨true, true, true, okOutcomes, some "acc777"⟩

/-- Every challenge-field probe times out. -/
def timeoutLoginEnv : LoginEnv := ⟨true, true, true, fun _ => .timeoutExc, some "acc777"⟩

/-- No Chrome binary on the machine. -/
def noChromeLoginEnv : LoginEnv := ⟨true, false, true, okOutcomes, some "acc777"⟩

/-- The redirect works but `generate_session` returns no
`access_token`. -/
def exchangeFailLoginEnv : LoginEnv := ⟨true, true, true, okOutcomes, none⟩

/-- First attempt dies with an unexpected exception, second succeeds. -/
def mixedLoginEnv : LoginEnv :=
  ⟨true, true, true,
   fun n => if n = 1 then .unexpectedExc
            else .redirected "action=login&request_token=req42",
   some "acc777"⟩

/-- Fully successful run, all three sinks accept the token. -/
def envSuccess : MainEnv := ⟨fullCreds, okLoginEnv, true, true, true⟩

/-- Successful acquisition, every sink fails. -/
def envAllSinksFail : MainEnv := ⟨fullCreds, okLoginEnv, false, false, false⟩

/-- Successful acquisition, exactly one of the two attempted local
sinks fails (keychain no, file yes), remote sink fails. -/
def envOneSinkFails : MainEnv := ⟨fullCreds, okLoginEnv, false, true, false⟩

/-- Run with a missing password. -/
def envNoPassword : MainEnv := ⟨credsNoPassword, okLoginEnv, true, true, true⟩

/-- Run on a machine without Chrome. -/
def envNoChrome : MainEnv := ⟨fullCreds, noChromeLoginEnv, true, true, true⟩

/-- Run where both challenge probes time out. -/
def envBothTimeout : MainEnv := ⟨fullCreds, timeoutLoginEnv, true, true, true⟩

/-- Run where the token exchange yields no access token. -/
def envExchangeFail : MainEnv := ⟨fullCreds, exchangeFailLoginEnv, true, true, true⟩

/-- A machine with no `gh` CLI installed. -/
def ghWorldNoCli : GhWorld := ⟨true, false, 1⟩

/-- A Linux box (keychain sink skipped). -/
def kcWorldLinux : KeychainWorld := ⟨false, false, false, 1, false, 1⟩

/-- A file-system world where every call succeeds. -/
def fsOkWorld : FsWorld := ⟨"/Users/trader", false, false, false⟩

/-- A file-system world where `os.makedirs` raises. -/
def fsMakedirsRaisesWorld : FsWorld := ⟨"/Users/trader", true, false, false⟩

/-- Both attempts reach a redirect whose query has no
`request_token`. -/
def noTokenLoginEnv : LoginEnv :=
  ⟨true, true, true, fun _ => .redirected "status=success", some "acc777"⟩

/-- The `request_token` value an attempt leaves behind, given that it
started from `None`: the parse result on a redirect, nothing on a
timeout or an unexpected exception. -/
def attemptToken : AttemptOutcome → Option String
  | .redirected q => extractRequestToken q
  | .timeoutExc => none
  | .unexpectedExc => none

/-- Is this action a navigation attempt? -/
def isNav : Action → Bool
  | .navAttempt _ => true
  | _ => false

/-- Is this action the token exchange? -/
def isExchange : Action → Bool
  | .tokenExchange => true
  | _ => false

/-- Number of navigation attempts recorded in a trace. -/
def navCount (tr : List Action) : Nat := tr.countP isNav

/-- Number of token-exchange calls recorded in a trace. -/
def exchangeCount (tr : List Action) : Nat := tr.countP isExchange

/-!
# Theorems

First a few helper lemmas about the retry loop and the JSON encoder,
then one theorem per claim.
-/

/-- Strings with equal character data are equal. -/
theorem strExt {a b : String} (h : a.data = b.data) : a = b := by
  cases a; cases b; exact congrArg String.mk h

/-- Character data of an appended string. -/
theorem strDataAppend (a b : String) : (a ++ b).data = a.data ++ b.data := by
  cases a; cases b; rfl

/-- One step of the retry loop starting with no token. -/
theorem loopGo_succ_none (outcomes : Nat → AttemptOutcome) (fuel attempt : Nat) :
    loopGo outcomes (fuel + 1) attempt none =
      ((loopGo outcomes fuel (attempt + 1) (attemptToken (outcomes (attempt + 1)))).1,
       (loopGo outcomes fuel (attempt + 1) (attemptToken (outcomes (attempt + 1)))).2.1,
       Action.navAttempt (attempt + 1) ::
         (loopGo outcomes fuel (attempt + 1) (attemptToken (outcomes (attempt + 1)))).2.2) := by
  cases h : outcomes (attempt + 1) <;> simp [loopGo, attemptToken, strFalsy, h]

/-- The loop's final attempt counter gains at most `fuel`. -/
theorem loopGo_fst_le (outcomes : Nat → AttemptOutcome) (fuel attempt : Nat)
    (tok : Option String) :
    (loopGo outcomes fuel attempt tok).1 ≤ attempt + fuel := by
  induction fuel generalizing attempt tok with
  | zero => simp [loopGo]
  | succ n ih =>
      unfold loopGo
      by_cases h : strFalsy tok
      · simp only [h, if_true]
        exact (ih (attempt + 1) _).trans (by omega)
      · simp [h]

/-- Every action the loop records is a navigation attempt. -/
theorem loopGo_trace_nav (outcomes : Nat → AttemptOutcome) (fuel attempt : Nat)
    (tok : Option String) :
    ∀ a ∈ (loopGo outcomes fuel attempt tok).2.2, isNav a = true := by
  induction fuel generalizing attempt tok with
  | zero => simp [loopGo]
  | succ n ih =>
      unfold loopGo
      by_cases h : strFalsy tok
      · simp only [h, if_true]
        intro a ha
        rcases List.mem_cons.mp ha with rfl | ha
        · rfl
        · exact ih (attempt + 1) _ a ha
      · simp [h]

/-- When neither of the two attempts yields a request token, the loop
runs exactly twice and ends with none. -/
theorem loopGo_none_none (outcomes : Nat → AttemptOutcome)
    (h1 : attemptToken (outcomes 1) = none) (h2 : attemptToken (outcomes 2) = none) :
    loopGo outcomes 2 0 none = (2, none, [Action.navAttempt 1, Action.navAttempt 2]) := by
  have e1 := loopGo_succ_none outcomes 1 0
  have e2 := loopGo_succ_none outcomes 0 1
  norm_num at e1 e2
  rw [h1] at e1
  rw [h2] at e2
  rw [e1, e2]
  rfl

/-- A falsy field puts its name in the missing list. -/
theorem mem_missingFields {c : Creds} {name : String} {v : Option String}
    (hmem : (name, v) ∈ credPairs c) (hf : strFalsy v = true) :
    name ∈ missingFields c := by
  unfold missingFields
  exact List.mem_map_of_mem _ (List.mem_filter.mpr ⟨hmem, hf⟩)

/-- JSON escaping leaves plain printable ASCII characters alone. -/
theorem jsonEscapeChar_plain {c : Char} (h : jsonPlainChar c = true) :
    jsonEscapeChar c = [c] := by
  unfold jsonPlainChar at h
  simp only [Bool.and_eq_true, decide_eq_true_eq, bne_iff_ne, ne_eq] at h
  obtain ⟨⟨⟨h1, h2⟩, h3⟩, h4⟩ := h
  unfold jsonEscapeChar
  rw [if_neg h3, if_neg h4, if_neg (by omega), if_neg (by omega), if_neg (by omega),
      if_neg (by omega), if_neg (by omega), if_neg (by omega)]

/-- Flattening singleton lists is the identity. -/
theorem flatten_map_singleton (l : List Char) : (l.map fun c => [c]).flatten = l := by
  induction l with
  | nil => rfl
  | cons c t ih => simp [ih]

/-- On a string of plain characters the JSON encoder only adds the
surrounding quotes. -/
theorem pyJsonStr_plain {s : String} (h : s.data.all jsonPlainChar = true) :
    pyJsonStr s = "\"" ++ s ++ "\"" := by
  have hmap : s.data.map jsonEscapeChar = s.data.map (fun c => [c]) := by
    apply List.map_congr_left
    intro c hc
    exact jsonEscapeChar_plain (List.all_eq_true.mp h c hc)
  unfold pyJsonStr
  rw [hmap, flatten_map_singleton]

/-- The full JSON payload for a plain token. -/
theorem jsonDump_plain {s : String} (h : s.data.all jsonPlainChar = true) :
    jsonDumpAccessToken s = "\x7b\"access_token\": \"" ++ s ++ "\"\x7d" := by
  apply strExt
  rw [jsonDumpAccessToken, pyJsonStr_plain h]
  simp only [strDataAppend, List.append_assoc]
  rfl

/-- The attempt counter of the flow never exceeds the budget. -/
theorem login_attempts_le (env : LoginEnv) :
    (login_and_get_token env).attempts ≤ max_attempts := by
  have hle : (loginLoopResult env).1 ≤ max_attempts := by
    simpa using loopGo_fst_le env.outcomes max_attempts 0 none
  unfold login_and_get_token
  split
  · simp [max_attempts]
  · split
    · simp [max_attempts]
    · rcases hl : loginLoopResult env with ⟨n, tok, tr⟩
      rw [hl] at hle
      cases tok
      · simpa using hle
      · by_cases hs : strFalsy env.sessionAccessToken = true <;>
          simp only [hs, Bool.false_eq_true, if_true, if_false] <;> simpa using hle

/-- The retry loop itself never performs a token exchange. -/
theorem loopGo_exchangeCount (outcomes : Nat → AttemptOutcome) (fuel attempt : Nat)
    (tok : Option String) :
    exchangeCount (loopGo outcomes fuel attempt tok).2.2 = 0 := by
  unfold exchangeCount
  rw [List.countP_eq_zero]
  intro a ha
  have hn := loopGo_trace_nav outcomes fuel attempt tok a ha
  cases a <;> simp_all [isNav, isExchange]

/-- Claim C1, counterexample: with a successful acquisition and every
sink failing, the per-sink results are recorded as all-failed and the
"No storage succeeded" error is logged, yet the process exit code is
still 0 — the run as a whole does not fail, contrary to the claim's
"when every sink fails the run as a whole fails". -/
theorem C1_all_sinks_fail_counterexample :
    (main envAllSinksFail).sinkResults = some (false, false, false) ∧
    (main envAllSinksFail).storageErrorLogged = true ∧
    (main envAllSinksFail).exitCode = exit_success := by decide

/-- Claim C1, amended: after a successful token acquisition the run
attempts all three sinks unconditionally and independently, records a
per-sink boolean triple, and logs the "No storage succeeded" error
exactly when every sink failed; the process exit code is 0 whatever
the sink results — so when exactly one of two sinks fails the run
still reports success, but when every sink fails the run merely logs
an error and still exits 0. -/
theorem C1_sink_aggregation (e : MainEnv) (t : String)
    (hcred : missingFields e.creds = [])
    (hlogin : (login_and_get_token e.login).outcome = .ok t) :
    (main e).exitCode = exit_success ∧
    (main e).sinkResults = some (e.keychainOk, e.fileOk, e.ghOk) ∧
    Action.sinkKeychainTry ∈ (main e).trace ∧
    Action.sinkLocalFileTry ∈ (main e).trace ∧
    Action.sinkGhSecretTry ∈ (main e).trace ∧
    (main e).storageErrorLogged = !(e.keychainOk || e.fileOk || e.ghOk) := by
  unfold main
  rw [if_neg (by simp [hcred])]
  split
  · next c hc =>
      rw [hlogin] at hc
      cases hc
  · next t2 ht =>
      simp

/-- Claim C1, witness for the amended theorem at a run where exactly
one of the two local sinks succeeds. -/
theorem C1_sink_aggregation_witness :
    (main envOneSinkFails).exitCode = exit_success ∧
    (main envOneSinkFails).sinkResults = some (false, true, false) ∧
    Action.sinkKeychainTry ∈ (main envOneSinkFails).trace ∧
    Action.sinkLocalFileTry ∈ (main envOneSinkFails).trace ∧
    Action.sinkGhSecretTry ∈ (main envOneSinkFails).trace ∧
    (main envOneSinkFails).storageErrorLogged = false :=
  C1_sink_aggregation envOneSinkFails "acc777" rfl rfl

/-- Claim C2: a credential set with any required field absent or empty
makes the run exit with code 2 (MissingCredential) with an empty
action trace — in particular the browser launch step is never
invoked and no navigation happens. -/
theorem C2_missing_credential_fails_fast (e : MainEnv)
    (h : strFalsy e.creds.api_key = true ∨ strFalsy e.creds.api_secret = true ∨
         strFalsy e.creds.user_id = true ∨ strFalsy e.creds.password = true ∨
         strFalsy e.creds.totp_secret = true) :
    (main e).exitCode = exit_missing_credential ∧
    Action.browserLaunch ∉ (main e).trace ∧ (main e).trace = [] := by
  have hne : missingFields e.creds ≠ [] := by
    obtain h | h | h | h | h := h
    · exact List.ne_nil_of_mem
        (@mem_missingFields e.creds "api_key" e.creds.api_key (by simp [credPairs]) h)
    · exact List.ne_nil_of_mem
        (@mem_missingFields e.creds "api_secret" e.creds.api_secret (by simp [credPairs]) h)
    · exact List.ne_nil_of_mem
        (@mem_missingFields e.creds "user_id" e.creds.user_id (by simp [credPairs]) h)
    · exact List.ne_nil_of_mem
        (@mem_missingFields e.creds "password" e.creds.password (by simp [credPairs]) h)
    · exact List.ne_nil_of_mem
        (@mem_missingFields e.creds "totp_secret" e.creds.totp_secret (by simp [credPairs]) h)
  simp [main, hne]

/-- Claim C2, witness: a run with the password unset exits 2 without
launching the browser. -/
theorem C2_missing_credential_witness :
    (main envNoPassword).exitCode = exit_missing_credential ∧
    Action.browserLaunch ∉ (main envNoPassword).trace ∧
    (main envNoPassword).trace = [] :=
  C2_missing_credential_fails_fast envNoPassword (by decide)

/-- Claim C3: whenever the browser session was created (the trace
contains `browserLaunch`), the trace also contains `driverQuit` — the
driver is released on success, on challenge-not-found (all attempts
time out), on redirect-token-missing, on token-exchange failure, and
when an attempt dies with an unexpected exception, since the oracle
ranges over all of these. -/
theorem C3_browser_always_released (env : LoginEnv)
    (h : Action.browserLaunch ∈ (login_and_get_token env).trace) :
    Action.driverQuit ∈ (login_and_get_token env).trace := by
  by_cases hd : env.depsAvailable = true
  · by_cases hc : (env.chromeFound && env.driverFound) = true
    · unfold login_and_get_token
      rw [hd, hc]
      simp only [Bool.not_true, Bool.false_eq_true, if_false]
      split
      · simp
      · split <;> simp
    · rw [Bool.not_eq_true] at hc
      simp [login_and_get_token, hd, hc] at h
  · rw [Bool.not_eq_true] at hd
    simp [login_and_get_token, hd] at h

/-- Claim C3, witness: a run whose first attempt dies with an
unexpected exception still quits the driver. -/
theorem C3_browser_released_witness :
    Action.driverQuit ∈ (login_and_get_token mixedLoginEnv).trace :=
  C3_browser_always_released mixedLoginEnv (by decide)

/-- Claim C4: the navigation sequence is tried at most
`max_attempts = 2` times; when the challenge probe times out on both
attempts the flow fails with exit code 4 after exactly 2 attempts (no
third attempt); a missing credential causes no navigation attempt at
all, a missing browser environment causes none, and the token
exchange appears at most once in any trace (it is never retried). -/
theorem C4_retry_budget (e : MainEnv) :
    (login_and_get_token e.login).attempts ≤ max_attempts ∧
    ((e.login.depsAvailable = true ∧ e.login.chromeFound = true ∧
      e.login.driverFound = true ∧ e.login.outcomes 1 = .timeoutExc ∧
      e.login.outcomes 2 = .timeoutExc) →
      (login_and_get_token e.login).outcome = .error exit_challenge_or_redirect ∧
      (login_and_get_token e.login).attempts = 2) ∧
    (missingFields e.creds ≠ [] → navCount (main e).trace = 0) ∧
    (e.login.chromeFound = false → (login_and_get_token e.login).attempts = 0) ∧
    exchangeCount (login_and_get_token e.login).trace ≤ 1 := by
  refine ⟨login_attempts_le e.login, ?_, ?_, ?_, ?_⟩
  · rintro ⟨hd, hc, hv, h1, h2⟩
    have hl : loginLoopResult e.login =
        (2, none, [Action.navAttempt 1, Action.navAttempt 2]) :=
      loopGo_none_none e.login.outcomes (by simp [attemptToken, h1])
        (by simp [attemptToken, h2])
    unfold login_and_get_token
    rw [hd, hc, hv, hl]
    simp
  · intro hmiss
    simp [main, hmiss, navCount]
  · intro hc
    by_cases hd : e.login.depsAvailable = true
    · simp [login_and_get_token, hd, hc]
    · rw [Bool.not_eq_true] at hd
      simp [login_and_get_token, hd]
  · by_cases hd : e.login.depsAvailable = true
    · by_cases hc : (e.login.chromeFound && e.login.driverFound) = true
      · unfold login_and_get_token
        rw [hd, hc]
        simp only [Bool.not_true, Bool.false_eq_true, if_false]
        have hex := loopGo_exchangeCount e.login.outcomes max_attempts 0 none
        rcases hl : loginLoopResult e.login with ⟨n, tok, tr⟩
        have hl2 : loopGo e.login.outcomes max_attempts 0 none = (n, tok, tr) := hl
        rw [hl2] at hex
        have hex2 : List.countP isExchange tr = 0 := hex
        cases tok
        · simp [exchangeCount, List.countP_cons, List.countP_append, isExchange, hex2]
        · by_cases hs : strFalsy e.login.sessionAccessToken = true <;>
            simp [hs, exchangeCount, List.countP_cons, List.countP_append, isExchange, hex2]
      · rw [Bool.not_eq_true] at hc
        simp [login_and_get_token, hd, hc, exchangeCount]
    · rw [Bool.not_eq_true] at hd
      simp [login_and_get_token, hd, exchangeCount]

/-- Claim C4, witness: with both probes timing out, the flow makes
exactly 2 attempts and exits 4. -/
theorem C4_retry_budget_witness :
    (login_and_get_token envBothTimeout.login).attempts ≤ max_attempts ∧
    (login_and_get_token envBothTimeout.login).outcome =
      .error exit_challenge_or_redirect ∧
    (login_and_get_token envBothTimeout.login).attempts = 2 :=
  ⟨(C4_retry_budget envBothTimeout).1,
   ((C4_retry_budget envBothTimeout).2.1 ⟨rfl, rfl, rfl, rfl, rfl⟩).1,
   ((C4_retry_budget envBothTimeout).2.1 ⟨rfl, rfl, rfl, rfl, rfl⟩).2⟩

/-- Claim C5, counterexample: the spec's test vector is wrong — seed
`JBSWY3DPEHPK3PXP` at Unix time 59 does not yield `"287082"`. -/
theorem C5_totp_vector_counterexample :
    totp "JBSWY3DPEHPK3PXP" 59 ≠ "287082" := by decide

/-- Claim C5, amended: the passcode is the output of the deterministic
standard 6-digit, 30-second-step TOTP algorithm (RFC 6238 over
HMAC-SHA-1); seed `JBSWY3DPEHPK3PXP` at Unix time 59 yields
`"996554"`, while `"287082"` is that algorithm's output for the RFC
6238 test key `12345678901234567890` (base32
`GEZDGNBVGY3TQOJQGEZDGNBVGY3TQOJQ`) at time 59. -/
theorem C5_totp_vectors :
    totp "JBSWY3DPEHPK3PXP" 59 = "996554" ∧
    totp "GEZDGNBVGY3TQOJQGEZDGNBVGY3TQOJQ" 59 = "287082" :=
  ⟨by decide, by decide⟩

/-- Claim C6: when every attempt ends on a redirect whose query string
carries no `request_token`, the flow exits with code 4 and the token
exchange is never attempted. -/
theorem C6_redirect_token_missing (env : LoginEnv) (q1 q2 : String)
    (hd : env.depsAvailable = true) (hc : env.chromeFound = true)
    (hv : env.driverFound = true)
    (h1 : env.outcomes 1 = .redirected q1) (h2 : env.outcomes 2 = .redirected q2)
    (e1 : extractRequestToken q1 = none) (e2 : extractRequestToken q2 = none) :
    (login_and_get_token env).outcome = .error exit_challenge_or_redirect ∧
    Action.tokenExchange ∉ (login_and_get_token env).trace := by
  have hl : loginLoopResult env =
      (2, none, [Action.navAttempt 1, Action.navAttempt 2]) :=
    loopGo_none_none env.outcomes (by simp [attemptToken, h1, e1])
      (by simp [attemptToken, h2, e2])
  unfold login_and_get_token
  rw [hd, hc, hv, hl]
  simp

/-- Claim C6, witness: both redirects land on `status=success` with no
token; the run exits 4 without exchanging. -/
theorem C6_redirect_token_missing_witness :
    (login_and_get_token noTokenLoginEnv).outcome =
      .error exit_challenge_or_redirect ∧
    Action.tokenExchange ∉ (login_and_get_token noTokenLoginEnv).trace :=
  C6_redirect_token_missing noTokenLoginEnv "status=success" "status=success"
    rfl rfl rfl rfl rfl (by decide) (by decide)

/-- Claim C7: exit code 0 on success, and the four failure classes —
missing credential (2), environment unavailable (3),
challenge-not-found / redirect failure (4), token-exchange failure
(7) — carry pairwise distinct nonzero codes, each realised by a
concrete run. -/
theorem C7_exit_codes_distinct :
    (main envSuccess).exitCode = exit_success ∧ exit_success = 0 ∧
    (main envNoPassword).exitCode = exit_missing_credential ∧
    (main envNoChrome).exitCode = exit_env_unavailable ∧
    (main envBothTimeout).exitCode = exit_challenge_or_redirect ∧
    (main envExchangeFail).exitCode = exit_token_exchange_failed ∧
    List.Pairwise (· ≠ ·)
      [exit_missing_credential, exit_env_unavailable, exit_challenge_or_redirect,
       exit_token_exchange_failed] ∧
    exit_missing_credential ≠ 0 ∧ exit_env_unavailable ≠ 0 ∧
    exit_challenge_or_redirect ≠ 0 ∧ exit_token_exchange_failed ≠ 0 := by decide

/-- Claim C9: with the file-system calls succeeding,
`save_to_local_file` returns `True`, targets the fixed per-account
path `<home>/.config/trading_algo/access_<env.lower()>.json`, writes
exactly the one-pair JSON object carrying the token, sets mode
`0o600`, and the written content is independent of whatever was at
the path before — overwrite, never merge. -/
theorem C9_local_file_sink (w : FsWorld) (env token : String)
    (prior prior2 : Option String)
    (hmk : w.makedirsRaises = false) (hwr : w.writeRaises = false)
    (hch : w.chmodRaises = false) (htok : token.data.all jsonPlainChar = true) :
    (save_to_local_file w env token prior).result = .ok true ∧
    (save_to_local_file w env token prior).path =
      w.home ++ "/.config/trading_algo" ++ "/access_" ++ strLower env ++ ".json" ∧
    (save_to_local_file w env token prior).fileMode = some 0o600 ∧
    (save_to_local_file w env token prior).fileContent =
      some ("\x7b\"access_token\": \"" ++ token ++ "\"\x7d") ∧
    (save_to_local_file w env token prior).fileContent =
      (save_to_local_file w env token prior2).fileContent := by
  simp [save_to_local_file, hmk, hwr, hch, jsonDump_plain htok]

/-- Claim C9, witness: saving token `tok123` for `SARAS` over an old
record yields the fresh single-object file with mode 600. -/
theorem C9_local_file_sink_witness :
    (save_to_local_file fsOkWorld "SARAS" "tok123" (some "old")).result = .ok true ∧
    (save_to_local_file fsOkWorld "SARAS" "tok123" (some "old")).path =
      "/Users/trader/.config/trading_algo/access_saras.json" ∧
    (save_to_local_file fsOkWorld "SARAS" "tok123" (some "old")).fileMode = some 0o600 ∧
    (save_to_local_file fsOkWorld "SARAS" "tok123" (some "old")).fileContent =
      some "\x7b\"access_token\": \"tok123\"\x7d" ∧
    (save_to_local_file fsOkWorld "SARAS" "tok123" (some "old")).fileContent =
      (save_to_local_file fsOkWorld "SARAS" "tok123" none).fileContent :=
  C9_local_file_sink fsOkWorld "SARAS" "tok123" (some "old") none
    rfl rfl rfl (by decide)

/-- Claim C10, counterexample: when `os.makedirs` raises (the config
directory cannot be created), `save_to_local_file` does not return a
boolean — the exception escapes, since that call sits outside the
`try` handler; this contradicts the claim that every sink-write
operation is total at its interface. -/
theorem C10_makedirs_raises_counterexample :
    (save_to_local_file fsMakedirsRaisesWorld "SARAS" "tok123" none).result =
      .error PyExc.other := rfl

/-- Claim C10, amended: `gh_update_secret` and `save_to_keychain`
always return a boolean — every failure mode (CLI binary absent,
non-macOS platform, subprocess failure, any exception) is caught and
reported as `False`; `save_to_local_file` returns a boolean provided
`os.makedirs` succeeds, that call alone being outside the `try`
handler. -/
theorem C10_sink_totality (gw : GhWorld) (kw : KeychainWorld) (fw : FsWorld)
    (env token : String) (prior : Option String) :
    (∃ b, gh_update_secret gw = .ok b) ∧
    (∃ b, save_to_keychain kw = .ok b) ∧
    (fw.makedirsRaises = false →
      ∃ b, (save_to_local_file fw env token prior).result = .ok b) := by
  refine ⟨?_, ?_, ?_⟩
  · cases hgb : ghTryBody gw with
    | ok b => exact ⟨b, by simp [gh_update_secret, hgb]⟩
    | error e => cases e <;> exact ⟨false, by simp [gh_update_secret, hgb]⟩
  · cases hd : kw.isDarwin with
    | false => exact ⟨false, by simp [save_to_keychain, hd]⟩
    | true =>
        cases hkb : keychainTryBody kw with
        | ok b => exact ⟨b, by simp [save_to_keychain, hd, hkb]⟩
        | error e => exact ⟨false, by simp [save_to_keychain, hd, hkb]⟩
  · intro hmk
    cases hwr : fw.writeRaises with
    | true => exact ⟨false, by simp [save_to_local_file, hmk, hwr]⟩
    | false =>
        cases hch : fw.chmodRaises with
        | true => exact ⟨false, by simp [save_to_local_file, hmk, hwr, hch]⟩
        | false => exact ⟨true, by simp [save_to_local_file, hmk, hwr, hch]⟩

/-- Claim C10, witness at a gh-less, non-mac machine with a healthy
file system. -/
theorem C10_sink_totality_witness :
    (∃ b, gh_update_secret ghWorldNoCli = .ok b) ∧
    (∃ b, save_to_keychain kcWorldLinux = .ok b) ∧
    (∃ b, (save_to_local_file fsOkWorld "VS" "tok9" none).result = .ok b) :=
  ⟨(C10_sink_totality ghWorldNoCli kcWorldLinux fsOkWorld "VS" "tok9" none).1,
   (C10_sink_totality ghWorldNoCli kcWorldLinux fsOkWorld "VS" "tok9" none).2.1,
   (C10_sink_totality ghWorldNoCli kcWorldLinux fsOkWorld "VS" "tok9" none).2.2 rfl⟩

end AutoLogin
